import Mathlib

/-!
Shallow embedding of the ai-facemaker browser demo generation pipeline
(the two variants of app.js in this repository, which share buildPrompt,
generateImage and the validation part of handleGenerate verbatim).

Modelling conventions:
- JavaScript strings are modelled as Lean String; the substring(0, n)
  truncations become String.take n; split, slice and join on the world
  context become String.splitOn, List.take and String.intercalate, which
  have the same semantics on the period separator.
- The call Math.random() is modelled by an explicit rational parameter q
  with 0 <= q < 1; Math.floor(q * n) becomes natFloor (q * n).
- JavaScript truthiness tests on strings (if (negative), !charName) are
  emptiness tests; a possibly absent JSON field (negativeText,
  negative_prompt, images, artifacts) is an Option; the possibly
  undefined result of indexing images[0] or artifacts[0] is an Option.
- The JSON number literals 1.0, -1.0 and 8.0 are the exact integers 1,
  -1 and 8; weights are modelled as Int, cfg scales as Nat.
- The aspect_ratio field of the SD3.5 body is named aspect here.
- The network call bedrock.invokeModel is an explicit function parameter
  from request bodies to response bodies; generateImage returns, next to
  the decoded base64 payload, the number of invokeModel calls it
  performed, so that remote-invocation counting is statable.
- The base64-to-byte conversion at the end of generateImage is a pure
  injective decoding of the selected field and is not modelled; the
  selected base64 string stands for the image bytes.
-/

namespace Facemaker

/-- Math.floor of a nonnegative rational, as a Nat. -/
def natFloor (x : ℚ) : Nat := (⌊x⌋).toNat

/-- The JS test s.startsWith(pre), as a prefix test on the character
    sequence of the string. -/
def jsStartsWith (s pre : String) : Bool := pre.data.isPrefixOf s.data

/-- The textToImageParams object of a Titan request body. -/
structure TitanParams where
  text : String
  negativeText : Option String
deriving DecidableEq

/-- The imageGenerationConfig object of a Titan request body. -/
structure TitanConfig where
  numberOfImages : Nat
  quality : String
  height : Nat
  width : Nat
  cfgScale : Nat
  seed : Nat
deriving DecidableEq

/-- The Titan request body built in the first branch of generateImage. -/
structure TitanBody where
  taskType : String
  textToImageParams : TitanParams
  imageGenerationConfig : TitanConfig
deriving DecidableEq

/-- The SD3.5 request body built in the second branch of generateImage.
    The aspect field models the aspect_ratio field of the source. -/
structure SD35Body where
  prompt : String
  mode : String
  aspect : String
  outputFormat : String
  seed : Nat
  negativePrompt : Option String
deriving DecidableEq

/-- One element of the text_prompts array of an SDXL request body. -/
structure TextPrompt where
  text : String
  weight : Int
deriving DecidableEq

/-- The SDXL request body built in the default branch of generateImage. -/
structure SDXLBody where
  textPrompts : List TextPrompt
  cfgScale : Nat
  seed : Nat
  steps : Nat
  width : Nat
  height : Nat
deriving DecidableEq

/-- The request body passed to invokeModel: one of the three per-model
    JSON shapes built by generateImage. -/
inductive RequestBody where
  | titan : TitanBody → RequestBody
  | sd35 : SD35Body → RequestBody
  | sdxl : SDXLBody → RequestBody
deriving DecidableEq

/-- One element of the artifacts array of a parsed response body. -/
structure Artifact where
  base64 : String
deriving DecidableEq

/-- The parsed JSON response body; each image field is Option-al because
    the source tests its presence by truthiness. -/
structure ResponseBody where
  images : Option (List String)
  artifacts : Option (List Artifact)
deriving DecidableEq

/-- The request-building phase of generateImage: the if / else-if / else
    chain on the modelId prefix, lines 198-244 of the source. The random
    draw Math.random() is the parameter q; the conditional pushes of the
    negative prompt are folded into the construction. -/
def encodeRequest (modelId prompt negative : String) (q : ℚ) : RequestBody :=
  if jsStartsWith modelId "amazon.titan" then
    .titan {
      taskType := "TEXT_IMAGE"
      textToImageParams := {
        text := prompt.take 512
        negativeText := if negative ≠ "" then some (negative.take 512) else none }
      imageGenerationConfig := {
        numberOfImages := 1
        quality := "premium"
        height := 1024
        width := 1024
        cfgScale := 8
        seed := natFloor (q * 2147483646) } }
  else if jsStartsWith modelId "stability.sd3" then
    .sd35 {
      prompt := prompt.take 10000
      mode := "text-to-image"
      aspect := "1:1"
      outputFormat := "png"
      seed := natFloor (q * 4294967294)
      negativePrompt := if negative ≠ "" then some negative else none }
  else
    .sdxl {
      textPrompts := [⟨ prompt.take 2000, 1 ⟩] ++
        (if negative ≠ "" then [⟨ negative, -1 ⟩] else [])
      cfgScale := 7
      seed := natFloor (q * 4294967294)
      steps := 50
      width := 1024
      height := 1024 }

/-- The prompt text carried by a request body: textToImageParams.text for
    Titan, prompt for SD3.5, the text of the first weighted prompt for
    SDXL. -/
def RequestBody.promptText : RequestBody → String
  | .titan b => b.textToImageParams.text
  | .sd35 b => b.prompt
  | .sdxl b => (b.textPrompts.headD ⟨ "", 0 ⟩).text

/-- The negativeText field of a Titan request body, none otherwise. -/
def RequestBody.titanNegative : RequestBody → Option String
  | .titan b => b.textToImageParams.negativeText
  | _ => none

/-- The negative_prompt field of an SD3.5 request body, none otherwise. -/
def RequestBody.sd35Negative : RequestBody → Option String
  | .sd35 b => b.negativePrompt
  | _ => none

/-- The text_prompts array of an SDXL request body, empty otherwise. -/
def RequestBody.sdxlPrompts : RequestBody → List TextPrompt
  | .sdxl b => b.textPrompts
  | _ => []

/-- The seed field placed in a request body, whichever its shape. -/
def RequestBody.seedValue : RequestBody → Nat
  | .titan b => b.imageGenerationConfig.seed
  | .sd35 b => b.seed
  | .sdxl b => b.seed

/-- The image-extraction phase of generateImage, lines 255-263 of the
    source: take images[0] when the images field is present, otherwise
    artifacts[0].base64 when the artifacts field is present, otherwise
    throw. A present-but-empty array is truthy in the source, so the
    extracted element is an Option. -/
def extractBase64 (r : ResponseBody) : Except String (Option String) :=
  match r.images with
  | some imgs => .ok imgs.head?
  | none =>
    match r.artifacts with
    | some arts => .ok (arts.head?.map Artifact.base64)
    | none => .error "No image in response"

/-- generateImage, lines 193-269 of the source: encode the request,
    perform exactly one invokeModel call, extract the base64 image from
    the parsed response. The size argument is accepted and, as in the
    source, never used. The second component counts the invokeModel
    calls performed. -/
def generateImage (modelId prompt negative : String) (size : Nat) (q : ℚ)
    (invoke : RequestBody → ResponseBody) :
    Except String (Option String) × Nat :=
  let body := encodeRequest modelId prompt negative q
  let r := invoke body
  (extractBase64 r, 1)

/-- buildPrompt, lines 182-191 of the source: the template literal,
    with the setting line computed as
    context.split(period).slice(0, 2).join(period). -/
def buildPrompt (context style name role description frame : String) : String :=
  frame ++ "\n\n" ++ "Character: " ++ name ++ ", " ++ role ++ "." ++ "\n" ++ description
    ++ "\n\n" ++ "Setting: " ++ String.intercalate "." ((context.splitOn ".").take 2)
    ++ "." ++ "\n\n" ++ "Style: " ++ style

/-- A second composition, written from the words of the specification
    rather than from the source, for comparison: the five segments
    frame, character identity line, character description, setting line
    and style line, separated by blank lines. -/
def buildPromptClaimed (context style name role description frame : String) : String :=
  String.intercalate "\n\n"
    [ frame
    , "Character: " ++ name ++ ", " ++ role ++ "."
    , description
    , "Setting: " ++ String.intercalate "." ((context.splitOn ".").take 2) ++ "."
    , "Style: " ++ style ]

/-- The generation path of handleGenerate, lines 140-180 of the source:
    the connected guard on awsCredentials, the truthiness validation of
    world context, world style and character name, then buildPrompt and
    generateImage on the form values. The form reads are the parameters,
    in source order. -/
def handleGenerate (connected : Bool)
    (worldContext worldStyle negative charName charRole charDesc : String)
    (model : String) (size : Nat) (frame : String) (q : ℚ)
    (invoke : RequestBody → ResponseBody) :
    Except String (Except String (Option String) × Nat) :=
  if connected = false then
    .error "Not connected. Please enter your AWS credentials."
  else if worldContext = "" ∨ worldStyle = "" ∨ charName = "" then
    .error "Please fill in world context, style, and character name"
  else
    .ok (generateImage model
      (buildPrompt worldContext worldStyle charName charRole charDesc frame)
      negative size q invoke)

end Facemaker

namespace Facemaker

/-- The length of a truncated string is at most the truncation bound. -/
theorem take_length_le (s : String) (n : Nat) : (s.take n).length ≤ n := by
  rw [← String.length_data, String.data_take]
  simp [List.length_take]

/-- natFloor stays strictly below any natural bound its argument stays
    strictly below. -/
theorem natFloor_lt_of_lt {x : ℚ} {n : ℕ} (hn : 0 < n) (h : x < (n : ℚ)) :
    natFloor x < n := by
  have hf : ⌊x⌋ < (n : ℤ) := by
    rw [Int.floor_lt]
    exact_mod_cast h
  unfold natFloor
  omega

/-- Claim C2: the prompt text placed in the encoded request payload is the
    composed prompt truncated to the limit of the adapter selected by the
    modelId prefix: 512 characters for an amazon.titan prefix, 10000 for a
    stability.sd3 prefix, and 2000 for every other modelId. -/
theorem C2_prompt_truncation (modelId prompt negative : String) (q : ℚ) :
    (encodeRequest modelId prompt negative q).promptText =
      (if jsStartsWith modelId "amazon.titan" then prompt.take 512
       else if jsStartsWith modelId "stability.sd3" then prompt.take 10000
       else prompt.take 2000) ∧
    (encodeRequest modelId prompt negative q).promptText.length ≤
      (if jsStartsWith modelId "amazon.titan" then 512
       else if jsStartsWith modelId "stability.sd3" then 10000
       else 2000) := by
  cases ht : jsStartsWith modelId "amazon.titan" <;>
    cases hs : jsStartsWith modelId "stability.sd3" <;>
      simp [encodeRequest, RequestBody.promptText, ht, hs, take_length_le]

/-- Claim C3: a non-empty negative prompt is encoded per backend family:
    Titan carries it in the negativeText field truncated to 512
    characters, SD3.5 carries it untruncated in the negative_prompt
    field, SDXL appends it as a weighted prompt entry of weight -1
    after the positive entry of weight 1. -/
theorem C3_negative_encoding (modelId prompt negative : String) (q : ℚ)
    (h : negative ≠ "") :
    (encodeRequest modelId prompt negative q).titanNegative =
      (if jsStartsWith modelId "amazon.titan" then some (negative.take 512)
       else none) ∧
    (encodeRequest modelId prompt negative q).sd35Negative =
      (if jsStartsWith modelId "amazon.titan" then none
       else if jsStartsWith modelId "stability.sd3" then some negative
       else none) ∧
    (encodeRequest modelId prompt negative q).sdxlPrompts =
      (if jsStartsWith modelId "amazon.titan" then []
       else if jsStartsWith modelId "stability.sd3" then []
       else [⟨ prompt.take 2000, 1 ⟩, ⟨ negative, -1 ⟩]) := by
  cases ht : jsStartsWith modelId "amazon.titan" <;>
    cases hs : jsStartsWith modelId "stability.sd3" <;>
      simp [encodeRequest, RequestBody.titanNegative, RequestBody.sd35Negative,
        RequestBody.sdxlPrompts, h, ht, hs]

/-- Witness for C3 at a concrete Titan request. -/
theorem C3_negative_encoding_witness :
    ("low quality" : String) ≠ "" ∧
    (encodeRequest "amazon.titan-image-generator-v1" "p" "low quality" 0).titanNegative =
      some ("low quality".take 512) := by
  refine ⟨ by decide, ?_ ⟩
  have h := (C3_negative_encoding "amazon.titan-image-generator-v1" "p"
    "low quality" 0 (by decide)).1
  rw [h]
  simp [show jsStartsWith "amazon.titan-image-generator-v1" "amazon.titan" = true
    from by decide]

/-- Claim C10: an empty negative prompt is omitted from every payload:
    no negativeText field, no negative_prompt field, and a single
    positive entry of weight 1 in the SDXL text_prompts array. -/
theorem C10_empty_negative_omitted (modelId prompt : String) (q : ℚ) :
    (encodeRequest modelId prompt "" q).titanNegative = none ∧
    (encodeRequest modelId prompt "" q).sd35Negative = none ∧
    (encodeRequest modelId prompt "" q).sdxlPrompts =
      (if jsStartsWith modelId "amazon.titan" then []
       else if jsStartsWith modelId "stability.sd3" then []
       else [⟨ prompt.take 2000, 1 ⟩]) := by
  cases ht : jsStartsWith modelId "amazon.titan" <;>
    cases hs : jsStartsWith modelId "stability.sd3" <;>
      simp [encodeRequest, RequestBody.titanNegative, RequestBody.sd35Negative,
        RequestBody.sdxlPrompts, ht, hs]

end Facemaker

namespace Facemaker

/-- Claim C4 counterexample: the composed prompt is not the five
    segments separated by blank lines; at this input the source output
    and the specified layout differ (the description follows the
    identity line after a single newline). -/
theorem C4_counterexample :
    buildPrompt "A. B. C." "S" "N" "R" "D" "F" ≠
      buildPromptClaimed "A. B. C." "S" "N" "R" "D" "F" := by decide

/-- Claim C4 as amended: the composed prompt is the frame, a character
    block made of the identity line and, after a single newline, the
    description, the setting line built from at most the first two
    period-delimited segments of the world context joined with a
    trailing period, and the style line, with these four blocks
    separated by blank lines. -/
theorem C4_amended_layout (context style name role description frame : String) :
    buildPrompt context style name role description frame =
      String.intercalate "\n\n"
        [ frame
        , "Character: " ++ name ++ ", " ++ role ++ "." ++ "\n" ++ description
        , "Setting: " ++ String.intercalate "." ((context.splitOn ".").take 2) ++ "."
        , "Style: " ++ style ] := by
  simp [buildPrompt, String.intercalate, String.intercalate.go, ← String.append_assoc]

/-- Claim C5 counterexample: at a response carrying neither field the
    decode error message is capitalized, so it is not the literal
    claimed message. -/
theorem C5_counterexample :
    extractBase64 ⟨ none, none ⟩ = .error "No image in response" ∧
    extractBase64 ⟨ none, none ⟩ ≠ .error "no image in response" := by
  refine ⟨ rfl, fun h => ?_ ⟩
  rw [show extractBase64 ⟨ none, none ⟩ = .error "No image in response" from rfl] at h
  injection h with h
  exact absurd h (by decide)

/-- Claim C5 as amended: for every backend response payload carrying
    neither an images field nor an artifacts field, and for every
    modelId (hence every selected adapter), generateImage fails with
    the error message No image in response, capitalized as in the
    source. -/
theorem C5_amended_decode_error (modelId prompt negative : String) (size : Nat)
    (q : ℚ) (r : ResponseBody) (h1 : r.images = none) (h2 : r.artifacts = none) :
    (generateImage modelId prompt negative size q (fun _ => r)).1 =
      .error "No image in response" := by
  obtain ⟨ ri, ra ⟩ := r
  simp only [] at h1 h2
  subst h1; subst h2
  rfl

/-- Witness for C5 at the empty response payload. -/
theorem C5_amended_decode_error_witness :
    (⟨ none, none ⟩ : ResponseBody).images = none ∧
    (⟨ none, none ⟩ : ResponseBody).artifacts = none ∧
    (generateImage "stability.sd3-large-v1" "p" "n" 64 0 (fun _ => ⟨ none, none ⟩)).1 =
      .error "No image in response" :=
  ⟨ rfl, rfl,
    C5_amended_decode_error "stability.sd3-large-v1" "p" "n" 64 0 ⟨ none, none ⟩ rfl rfl ⟩

/-- Claim C9: decode selects the image field by the shape of the
    response payload, not by the adapter: whenever the images field is
    present the result is its first element, whatever the artifacts
    field holds, and the result does not depend on the modelId. -/
theorem C9_decode_by_shape (m1 m2 prompt negative : String) (size : Nat) (q : ℚ)
    (r : ResponseBody) (imgs : List String) (h : r.images = some imgs) :
    (generateImage m1 prompt negative size q (fun _ => r)).1 = .ok imgs.head? ∧
    (generateImage m1 prompt negative size q (fun _ => r)).1 =
      (generateImage m2 prompt negative size q (fun _ => r)).1 := by
  obtain ⟨ ri, ra ⟩ := r
  simp only [] at h
  subst h
  exact ⟨ rfl, rfl ⟩

/-- Witness for C9: an SDXL modelId with a response carrying both an
    images and an artifacts field decodes to images[0]. -/
theorem C9_decode_by_shape_witness :
    (⟨ some ["imgdata"], some [⟨ "artdata" ⟩] ⟩ : ResponseBody).images =
      some ["imgdata"] ∧
    (generateImage "stability.stable-diffusion-xl-v1" "p" "n" 64 0
      (fun _ => ⟨ some ["imgdata"], some [⟨ "artdata" ⟩] ⟩)).1 = .ok (some "imgdata") :=
  ⟨ rfl,
    (C9_decode_by_shape "stability.stable-diffusion-xl-v1"
      "amazon.titan-image-generator-v1" "p" "n" 64 0
      ⟨ some ["imgdata"], some [⟨ "artdata" ⟩] ⟩ ["imgdata"] rfl).1 ⟩

/-- Claim C1 counterexample: two generateImage calls with identical
    model, prompt, negative, size and random draw perform two remote
    invocations in total, not one. -/
theorem C1_counterexample :
    (generateImage "amazon.titan-image-generator-v1" "p" "n" 64 0
        (fun _ => ⟨ some ["img"], none ⟩)).2 +
      (generateImage "amazon.titan-image-generator-v1" "p" "n" 64 0
        (fun _ => ⟨ some ["img"], none ⟩)).2 = 2 ∧ 2 ≠ 1 := by
  exact ⟨ rfl, by decide ⟩

/-- Claim C1 as amended: there is no cache; every generateImage call
    performs exactly one remote invocation, so two calls with identical
    arguments perform two remote invocations in total. -/
theorem C1_amended_every_call_invokes (modelId prompt negative : String)
    (size : Nat) (q : ℚ) (invoke : RequestBody → ResponseBody) :
    (generateImage modelId prompt negative size q invoke).2 = 1 ∧
    (generateImage modelId prompt negative size q invoke).2 +
      (generateImage modelId prompt negative size q invoke).2 = 2 :=
  ⟨ rfl, rfl ⟩

end Facemaker

namespace Facemaker

/-- Claim C6 counterexample: with a requested size of 2048, above the
    canonical 1024, the pipeline does not fail: it proceeds to exactly
    one backend invocation and returns its decoded payload. -/
theorem C6_counterexample :
    handleGenerate true "A world." "Painterly" "blurry" "Tessa" "Digger" "Grinning"
        "amazon.titan-image-generator-v1" 2048 "Centered face icon." 0
        (fun _ => ⟨ some ["img"], none ⟩) = .ok (.ok (some "img"), 1) ∧
    1024 < 2048 := ⟨ rfl, by decide ⟩

/-- Claim C6 as amended: the requested size is never validated; for any
    size, including any size above 1024, a run that passes the
    world-context, style and name checks proceeds to exactly one
    backend invocation and no error is raised before it. -/
theorem C6_amended_no_size_validation (connected : Bool)
    (worldContext worldStyle negative charName charRole charDesc model : String)
    (size : Nat) (frame : String) (q : ℚ) (invoke : RequestBody → ResponseBody)
    (hc : connected = true) (hw : worldContext ≠ "") (hs : worldStyle ≠ "")
    (hn : charName ≠ "") (hsize : 1024 < size) :
    ∃ res, handleGenerate connected worldContext worldStyle negative charName
      charRole charDesc model size frame q invoke = .ok (res, 1) := by
  subst hc
  refine ⟨ extractBase64 (invoke (encodeRequest model
    (buildPrompt worldContext worldStyle charName charRole charDesc frame)
    negative q)), ?_ ⟩
  simp [handleGenerate, hw, hs, hn, generateImage]

/-- Witness for C6 at size 2048. -/
theorem C6_amended_no_size_validation_witness :
    true = true ∧ ("A world." : String) ≠ "" ∧ ("Painterly" : String) ≠ "" ∧
    ("Tessa" : String) ≠ "" ∧ 1024 < 2048 ∧
    ∃ res, handleGenerate true "A world." "Painterly" "blurry" "Tessa" "Digger"
      "Grinning" "amazon.titan-image-generator-v1" 2048 "Centered face icon." 0
      (fun _ => ⟨ some ["img"], none ⟩) = .ok (res, 1) :=
  ⟨ rfl, by decide, by decide, by decide, by decide,
    C6_amended_no_size_validation true "A world." "Painterly" "blurry" "Tessa"
      "Digger" "Grinning" "amazon.titan-image-generator-v1" 2048
      "Centered face icon." 0 (fun _ => ⟨ some ["img"], none ⟩)
      rfl (by decide) (by decide) (by decide) (by decide) ⟩

/-- Claim C7 counterexample: with an empty frame but every validated
    field non-empty, composition does not fail and a backend request is
    made. -/
theorem C7_counterexample :
    handleGenerate true "A world." "Painterly" "n" "Tessa" "Digger" "Grinning"
        "m" 64 "" 0 (fun _ => ⟨ some ["img"], none ⟩) =
      .ok (.ok (some "img"), 1) := rfl

/-- Claim C7 as amended: when connected, handleGenerate rejects with the
    fill-in message exactly when the world context, the world style or
    the character name is empty; the frame is not validated. -/
theorem C7_amended_validated_fields
    (worldContext worldStyle negative charName charRole charDesc model : String)
    (size : Nat) (frame : String) (q : ℚ) (invoke : RequestBody → ResponseBody) :
    handleGenerate true worldContext worldStyle negative charName charRole
        charDesc model size frame q invoke =
      .error "Please fill in world context, style, and character name" ↔
    (worldContext = "" ∨ worldStyle = "" ∨ charName = "") := by
  by_cases hv : worldContext = "" ∨ worldStyle = "" ∨ charName = "" <;>
    simp [handleGenerate, hv, generateImage]

/-- Claim C8 counterexample: the Titan seed is never the upper end of
    the claimed inclusive range; no random draw yields 2147483646. -/
theorem C8_counterexample :
    ¬ ∃ q : ℚ, 0 ≤ q ∧ q < 1 ∧
      (encodeRequest "amazon.titan-image-generator-v1" "p" "n" q).seedValue =
        2147483646 := by
  rintro ⟨ q, hq0, hq1, hseed ⟩
  have ht : jsStartsWith "amazon.titan-image-generator-v1" "amazon.titan" = true := by
    decide
  rw [show (encodeRequest "amazon.titan-image-generator-v1" "p" "n" q).seedValue
      = natFloor (q * 2147483646) from by
    simp [encodeRequest, RequestBody.seedValue, ht]] at hseed
  have hlt : natFloor (q * 2147483646) < 2147483646 := by
    refine natFloor_lt_of_lt (by norm_num) ?_
    push_cast
    nlinarith
  omega

/-- Claim C8 as amended: there is no caller-supplied seed; the seed
    placed in the payload is always Math.floor of the random draw times
    2147483646 for Titan and times 4294967294 otherwise, so it is at
    most 2147483645, respectively 4294967293. -/
theorem C8_amended_seed_bound (modelId prompt negative : String) (q : ℚ)
    (h0 : 0 ≤ q) (h1 : q < 1) :
    (encodeRequest modelId prompt negative q).seedValue ≤
      (if jsStartsWith modelId "amazon.titan" then 2147483645 else 4294967293) := by
  have hA : natFloor (q * 2147483646) < 2147483646 := by
    refine natFloor_lt_of_lt (by norm_num) ?_
    push_cast
    nlinarith
  have hB : natFloor (q * 4294967294) < 4294967294 := by
    refine natFloor_lt_of_lt (by norm_num) ?_
    push_cast
    nlinarith
  cases ht : jsStartsWith modelId "amazon.titan" <;>
    cases hs : jsStartsWith modelId "stability.sd3" <;>
      simp [encodeRequest, RequestBody.seedValue, ht, hs] <;> omega

/-- Witness for C8 at the zero draw on a Titan model. -/
theorem C8_amended_seed_bound_witness :
    (0 : ℚ) ≤ 0 ∧ (0 : ℚ) < 1 ∧
    (encodeRequest "amazon.titan-image-generator-v1" "p" "n" 0).seedValue ≤
      2147483645 := by
  refine ⟨ le_refl 0, by norm_num, ?_ ⟩
  have h := C8_amended_seed_bound "amazon.titan-image-generator-v1" "p" "n" 0
    (le_refl 0) (by norm_num)
  simpa [show jsStartsWith "amazon.titan-image-generator-v1" "amazon.titan" = true
    from by decide] using h

end Facemaker
